import Mathlib

/-!
A shallow embedding, in Lean 4, of the sentipy client library
(`sentipy/sentipy.py`) together with theorems checking its
natural-language specification against the code.

Modelling conventions:

* Decoded JSON values are modelled by the inductive type `Json`; a Python
  `dict` decoded from JSON is an association list with unique keys, and
  `d.get(k)` is `pyGet d k : Option Json` (`none` models Python `None`).
* Python values that may be `None` are modelled by `Option`.
* Code that can raise an exception is modelled in the `Except PyError`
  monad; `PyError.valueError` models the `ValueError` raised for bad
  credentials, `PyError.exceptionText` the `Exception(response.text)`
  raised on a JSON decoding failure, `PyError.exceptionMsg` the
  `Exception(json.get("message"))` raised on a non-ok HTTP status, and
  `PyError.attributeError` / `PyError.typeError` the runtime errors Python
  raises when an attribute or iteration is used on an unsuitable value.
* The HTTP transport is an external collaborator: every client method is a
  function of its arguments and of the wire response it receives, an
  `HttpResponse` carrying the status flag, the raw body text and the
  result of JSON-decoding the body (`none` models a `JSONDecodeError`).
* Python dictionaries built by the code (the subreddits breakdown, the
  historical mapping) are modelled extensionally as lookup functions,
  matching Python dict equality, which ignores insertion order.
-/

set_option linter.unusedVariables false

/-- A decoded JSON value. -/
inductive Json where
  | null : Json
  | bool (b : Bool) : Json
  | num (q : ℚ) : Json
  | str (s : String) : Json
  | arr (elems : List Json) : Json
  | obj (fields : List (String × Json)) : Json

mutual

/-- Structural boolean equality of JSON values.  Written by hand because
the nested list occurrences block the deriving handler for decidable
equality. -/
def Json.beq : Json → Json → Bool
  | .num p, .num q => p == q
  | .str p, .str q => p == q
  | .bool p, .bool q => p == q
  | .arr p, .arr q => Json.beqA p q
  | .obj p, .obj q => Json.beqO p q
  | .null, .null => true
  | _, _ => false

/-- Elementwise structural equality of JSON array contents. -/
def Json.beqA : List Json → List Json → Bool
  | p :: ps, q :: qs => (Json.beq p q).and (Json.beqA ps qs)
  | [], [] => true
  | _, _ => false

/-- Keywise and valuewise structural equality of JSON object contents. -/
def Json.beqO : List (String × Json) → List (String × Json) → Bool
  | (ka, va) :: ps, (kb, vb) :: qs => (ka == kb).and ((Json.beq va vb).and (Json.beqO ps qs))
  | [], [] => true
  | _, _ => false

end

mutual

/-- The structural equality test answers true on exactly the equal pairs
of JSON values. -/
def Json.beqIff : ∀ a b : Json, Json.beq a b = true ↔ a = b
  | .num p, .num q => by simp [Json.beq]
  | .str p, .str q => by simp [Json.beq]
  | .bool p, .bool q => by simp [Json.beq]
  | .arr p, .arr q => by simpa [Json.beq] using Json.beqAIff p q
  | .obj p, .obj q => by simpa [Json.beq] using Json.beqOIff p q
  | .null, .null => by simp [Json.beq]
  | .num _, .null | .str _, .null | .bool _, .null | .arr _, .null | .obj _, .null => by
      simp [Json.beq]
  | .num _, .str _ | .str _, .num _ | .bool _, .num _ | .arr _, .num _ | .obj _, .num _ => by
      simp [Json.beq]
  | .num _, .bool _ | .str _, .bool _ | .bool _, .str _ | .arr _, .str _ | .obj _, .str _ => by
      simp [Json.beq]
  | .num _, .arr _ | .str _, .arr _ | .bool _, .arr _ | .arr _, .bool _ | .obj _, .bool _ => by
      simp [Json.beq]
  | .num _, .obj _ | .str _, .obj _ | .bool _, .obj _ | .arr _, .obj _ | .obj _, .arr _ => by
      simp [Json.beq]
  | .null, .num _ | .null, .str _ | .null, .bool _ | .null, .arr _ | .null, .obj _ => by
      simp [Json.beq]

/-- The array equality test answers true on exactly the equal lists. -/
def Json.beqAIff : ∀ ps qs : List Json, Json.beqA ps qs = true ↔ ps = qs
  | p :: ps, q :: qs => by
      have ih1 := Json.beqIff p q
      have ih2 := Json.beqAIff ps qs
      simp [Json.beqA, ih1, ih2]
  | [], [] => by simp [Json.beqA]
  | _ :: _, [] => by simp [Json.beqA]
  | [], _ :: _ => by simp [Json.beqA]

/-- The object equality test answers true on exactly the equal field
lists. -/
def Json.beqOIff : ∀ ps qs : List (String × Json), Json.beqO ps qs = true ↔ ps = qs
  | (ka, va) :: ps, (kb, vb) :: qs => by
      have ih1 := Json.beqIff va vb
      have ih2 := Json.beqOIff ps qs
      simp [Json.beqO, ih1, ih2, beq_iff_eq, and_assoc]
  | [], [] => by simp [Json.beqO]
  | _ :: _, [] => by simp [Json.beqO]
  | [], _ :: _ => by simp [Json.beqO]

end

instance : DecidableEq Json := fun a b => decidable_of_iff (Json.beq a b = true) (Json.beqIff a b)

/-- Python `d.get(k)` on a decoded dictionary, modelled as association-list
lookup (keys of a Python dict are unique, so first match is the match). -/
def pyGet {β : Type} (d : List (String × β)) (k : String) : Option β :=
  match d with
  | [] => none
  | (key, v) :: rest => if k = key then some v else pyGet rest k

/-- Python truthiness of a value that may be absent (`None`), as used by
`if response.get("success")`. -/
def truthy : Option Json → Bool
  | none => false
  | some .null => false
  | some (.bool b) => b
  | some (.num q) => q ≠ 0
  | some (.str s) => s ≠ ""
  | some (.arr elems) => elems ≠ []
  | some (.obj fields) => fields ≠ []

/-- Runtime errors raised by the Python code. -/
inductive PyError where
  | valueError (msg : String) : PyError
  | exceptionText (text : String) : PyError
  | exceptionMsg (msg : Option Json) : PyError
  | attributeError (msg : String) : PyError
  | typeError (msg : String) : PyError
deriving DecidableEq

/-- Python attribute access `x.get(...)` / `x.keys()` on a value expected to
be a dict: returns its fields, or raises `AttributeError` when the value is
`None` or not a dictionary. -/
def getAttrObj : Option Json → Except PyError (List (String × Json))
  | some (.obj fields) => .ok fields
  | some _ => .error (.attributeError "object has no attribute get or keys")
  | none => .error (.attributeError "NoneType has no attribute get or keys")

/-- Python iteration `for x in v` on a value expected to be a list: returns
its elements, or raises when the value is `None` or not a list.  (For
non-list iterables the real interpreter raises `AttributeError` slightly
later, when `.get` is called on the produced items; both behaviours are a
raised error, which is all the specification distinguishes.) -/
def getAttrArr : Option Json → Except PyError (List Json)
  | some (.arr elems) => .ok elems
  | some _ => .error (.typeError "object is not iterable as a list of records")
  | none => .error (.typeError "NoneType is not iterable")

/-- Record `SocialData` (sentipy.py lines 8-20). -/
structure SocialData where
  mentions : Option Json
  sentiment : Option Json
  relative_hype : Option Json
deriving DecidableEq

/-- Constructor `SocialData.__init__`: reads the three platform-prefixed
keys from the flat `results` mapping with `.get`. -/
def SocialData.make (results : List (String × Json)) (platform : String) : SocialData :=
  ⟨pyGet results (platform ++ "_mentions"),
   pyGet results (platform ++ "_sentiment"),
   pyGet results (platform ++ "_relative_hype")⟩

/-- Record `Subreddit` (sentipy.py lines 23-28). -/
structure Subreddit where
  mentions : Json
  sentiment : Json
deriving DecidableEq

/-- Record `Reddit` (sentipy.py lines 31-38).  The `subreddits` dictionary
is modelled extensionally as a lookup function; `none` models the `None`
stored when the source mapping has no `subreddits` key. -/
structure Reddit where
  posts : SocialData
  comments : SocialData
  subreddits : Option (String → Option Subreddit)

/-- Record `TickerData` (sentipy.py lines 41-66).  Its constructor receives
`response.get("symbol")`, which may be `None`, and stores `results.get(f)`
for each of the four metric fields. -/
structure TickerData where
  symbol : Option Json
  sentiment : Option Json
  AHI : Option Json
  RHI : Option Json
  SGP : Option Json
deriving DecidableEq

/-- Constructor `TickerData.__init__` (sentipy.py lines 62-66). -/
def TickerData.make (symbol : Option Json) (results : List (String × Json)) : TickerData :=
  ⟨symbol,
   pyGet results "sentiment",
   pyGet results "AHI",
   pyGet results "RHI",
   pyGet results "SGP"⟩

/-- Record `QuoteData` (sentipy.py lines 69-106), extending `TickerData`. -/
structure QuoteData extends TickerData where
  reddit_data : Reddit
  tweets : SocialData
  stocktwits_posts : SocialData
  yahoo_finance_comments : SocialData

/-- Constructor `QuoteData.__init__` (sentipy.py lines 84-106): builds the
base `TickerData`, the three per-platform `SocialData` records, and the
reddit breakdown.  When the `subreddits` key is present, the code calls
`.get` on its value and `.keys()` on the two sub-mappings, raising
`AttributeError` when any of those is `None` or not a dictionary; the
subreddit dictionary it builds is keyed by the intersection of the two
key sets, indexing each sub-mapping at the shared name. -/
def QuoteData.make (symbol : Option Json) (results : List (String × Json)) :
    Except PyError QuoteData := do
  let subreddits_processed ←
    match pyGet results "subreddits" with
    | none => Except.ok (none : Option (String → Option Subreddit))
    | some subredditsJson => do
        let subreddits ← getAttrObj (some subredditsJson)
        let mentions ← getAttrObj (pyGet subreddits "reddit_subreddit_mentions")
        let sentiment ← getAttrObj (pyGet subreddits "reddit_subreddit_sentiment")
        Except.ok (some (fun name =>
          match pyGet mentions name, pyGet sentiment name with
          | some mv, some sv => some ⟨mv, sv⟩
          | _, _ => none))
  Except.ok
    ⟨TickerData.make symbol results,
     ⟨SocialData.make results "reddit_post",
      SocialData.make results "reddit_comment",
      subreddits_processed⟩,
     SocialData.make results "tweet",
     SocialData.make results "stocktwits_post",
     SocialData.make results "yahoo_finance_comment"⟩

/-- The wire response a client method receives: HTTP ok flag, raw body text
(both `response.content.decode("utf-8")` and `response.text`), and the
outcome of `response.json()` (`none` models a `JSONDecodeError`). -/
structure HttpResponse where
  ok : Bool
  body : String
  decoded : Option Json

namespace Sentipy

/-- Method `Sentipy.__base_request` (sentipy.py lines 147-176), after the
GET has produced `response`: the bare-string credential check on the raw
body, then JSON decoding, then the HTTP status check. -/
def baseRequest (response : HttpResponse) : Except PyError Json :=
  if response.body = "invalid_parameter" ∨ response.body = "incorrect_key" then
    .error (.valueError "Incorrect key or token")
  else
    match response.decoded with
    | none => .error (.exceptionText response.body)
    | some json =>
      if response.ok then
        .ok json
      else
        match json with
        | .obj fields => .error (.exceptionMsg (pyGet fields "message"))
        | _ => .error (.attributeError "object has no attribute get or keys")

/-- A Python parameter value as serialized into the query string. -/
inductive ParamValue where
  | str (s : String) : ParamValue
  | bool (b : Bool) : ParamValue
  | int (n : Int) : ParamValue
deriving DecidableEq

/-- Python dict assignment `params[k] = v`: overwrite in place when the key
is present, append otherwise. -/
def pySet (params : List (String × ParamValue)) (k : String) (v : ParamValue) :
    List (String × ParamValue) :=
  if params.any (fun p => p.1 == k) then
    params.map (fun p => if p.1 == k then (k, v) else p)
  else
    params ++ [(k, v)]

/-- Credential injection in `__base_request` (sentipy.py lines 161-162):
`params["token"] = self.token` then `params["key"] = self.key`. -/
def requestParams (token key : String) (params : List (String × ParamValue)) :
    List (String × ParamValue) :=
  pySet (pySet params "token" (.str token)) "key" (.str key)

/-- Parameter mapping built by `Sentipy.bulk` (sentipy.py lines 346-349):
the symbols are joined into one comma-separated string. -/
def bulkParams (symbols : List String) (enrich : Bool) : List (String × ParamValue) :=
  [("symbols", .str (String.intercalate "," symbols)), ("enrich", .bool enrich)]

/-- Method `Sentipy.parsed` (sentipy.py lines 178-198), as a function of the
wire response. -/
def parsed (symbol : String) (resp : HttpResponse) : Except PyError (Option TickerData) := do
  let responseJson ← baseRequest resp
  match responseJson with
  | .obj response =>
    if truthy (pyGet response "success") then do
      let results ← getAttrObj (pyGet response "results")
      Except.ok (some (TickerData.make (pyGet response "symbol") results))
    else
      Except.ok none
  | _ => Except.error (.attributeError "object has no attribute get or keys")

/-- Method `Sentipy.raw` (sentipy.py lines 200-215). -/
def raw (symbol : String) (resp : HttpResponse) : Except PyError (Option QuoteData) := do
  let responseJson ← baseRequest resp
  match responseJson with
  | .obj response =>
    if truthy (pyGet response "success") then do
      let results ← getAttrObj (pyGet response "results")
      let qd ← QuoteData.make (pyGet response "symbol") results
      Except.ok (some qd)
    else
      Except.ok none
  | _ => Except.error (.attributeError "object has no attribute get or keys")

/-- Method `Sentipy.quote` (sentipy.py lines 217-269). -/
def quote (symbol : String) (enrich : Bool) (resp : HttpResponse) :
    Except PyError (Option QuoteData) := do
  let responseJson ← baseRequest resp
  match responseJson with
  | .obj response =>
    if truthy (pyGet response "success") then do
      let results ← getAttrObj (pyGet response "results")
      let qd ← QuoteData.make (pyGet response "symbol") results
      Except.ok (some qd)
    else
      Except.ok none
  | _ => Except.error (.attributeError "object has no attribute get or keys")

/-- A Python list comprehension over decoded values: applies `f` to each
element in order, propagating the first raised error. -/
def exceptMap {α β : Type} (f : α → Except PyError β) : List α → Except PyError (List β)
  | [] => .ok []
  | x :: rest => do
      let y ← f x
      let ys ← exceptMap f rest
      .ok (y :: ys)

/-- One step of the comprehension in `sort`, `bulk` and `all`
(sentipy.py lines 298, 351, 371): `TickerData(stock.get("symbol"), stock)`
for one element of the `results` list. -/
def tickerFromStock : Json → Except PyError TickerData
  | .obj stockFields => .ok (TickerData.make (pyGet stockFields "symbol") stockFields)
  | _ => .error (.attributeError "object has no attribute get or keys")

/-- One step of the comprehension in `historical` (sentipy.py line 331):
the pair `(dp.get("timestamp"), dp.get("data"))` for one element of the
`results` list. -/
def timestampDataPair : Json → Except PyError (Option Json × Option Json)
  | .obj dpFields => .ok (pyGet dpFields "timestamp", pyGet dpFields "data")
  | _ => .error (.attributeError "object has no attribute get or keys")

/-- Method `Sentipy.sort` (sentipy.py lines 271-299): one `TickerData` per
element of `results`, in response order, each using its own `symbol` key. -/
def sort (metric : String) (limit : Int) (resp : HttpResponse) :
    Except PyError (Option (List TickerData)) := do
  let responseJson ← baseRequest resp
  match responseJson with
  | .obj response =>
    if truthy (pyGet response "success") then do
      let results ← getAttrArr (pyGet response "results")
      let tickers ← exceptMap tickerFromStock results
      Except.ok (some tickers)
    else
      Except.ok none
  | _ => Except.error (.attributeError "object has no attribute get or keys")

/-- Timestamp-keyed dictionary insertion, as one step of the comprehension
in `Sentipy.historical`; a repeated key overwrites the stored value. -/
def pyDictInsert {κ ν : Type} [DecidableEq κ] (m : κ → Option ν) (k : κ) (v : ν) :
    κ → Option ν :=
  fun key => if key = k then some v else m key

/-- The dictionary built by a Python dict comprehension over a list of
key-value pairs, in list order: later pairs overwrite earlier ones. -/
def pyDictOfPairs {κ ν : Type} [DecidableEq κ] (pairs : List (κ × ν)) : κ → Option ν :=
  pairs.foldl (fun m p => pyDictInsert m p.1 p.2) (fun _ => none)

/-- Method `Sentipy.historical` (sentipy.py lines 301-332): builds the
timestamp-to-data dictionary from the `results` list. -/
def historical (symbol metric : String) (start endTime : Int) (resp : HttpResponse) :
    Except PyError (Option (Option Json → Option (Option Json))) := do
  let responseJson ← baseRequest resp
  match responseJson with
  | .obj response =>
    if truthy (pyGet response "success") then do
      let results ← getAttrArr (pyGet response "results")
      let pairs ← exceptMap timestampDataPair results
      Except.ok (some (pyDictOfPairs pairs))
    else
      Except.ok none
  | _ => Except.error (.attributeError "object has no attribute get or keys")

/-- Method `Sentipy.bulk` (sentipy.py lines 334-352): same result shape as
`sort`. -/
def bulk (symbols : List String) (enrich : Bool) (resp : HttpResponse) :
    Except PyError (Option (List TickerData)) := do
  let responseJson ← baseRequest resp
  match responseJson with
  | .obj response =>
    if truthy (pyGet response "success") then do
      let results ← getAttrArr (pyGet response "results")
      let tickers ← exceptMap tickerFromStock results
      Except.ok (some tickers)
    else
      Except.ok none
  | _ => Except.error (.attributeError "object has no attribute get or keys")

/-- Method `Sentipy.all` (sentipy.py lines 354-372). -/
def all (enrich : Bool) (resp : HttpResponse) :
    Except PyError (Option (List TickerData)) := do
  let responseJson ← baseRequest resp
  match responseJson with
  | .obj response =>
    if truthy (pyGet response "success") then do
      let results ← getAttrArr (pyGet response "results")
      let tickers ← exceptMap tickerFromStock results
      Except.ok (some tickers)
    else
      Except.ok none
  | _ => Except.error (.attributeError "object has no attribute get or keys")

/-- Method `Sentipy.supported` (sentipy.py lines 374-394). -/
def supported (symbol : String) (resp : HttpResponse) :
    Except PyError (Option (Option Json)) := do
  let responseJson ← baseRequest resp
  match responseJson with
  | .obj response =>
    if truthy (pyGet response "success") then
      Except.ok (some (pyGet response "result"))
    else
      Except.ok none
  | _ => Except.error (.attributeError "object has no attribute get or keys")

/-- Method `Sentipy.all_stocks` (sentipy.py lines 396-405): wraps the
`results` list in a set. -/
def all_stocks (resp : HttpResponse) : Except PyError (Option (Finset Json)) := do
  let responseJson ← baseRequest resp
  match responseJson with
  | .obj response =>
    if truthy (pyGet response "success") then do
      let results ← getAttrArr (pyGet response "results")
      Except.ok (some results.toFinset)
    else
      Except.ok none
  | _ => Except.error (.attributeError "object has no attribute get or keys")

end Sentipy

/-- Last-occurrence lookup on a list of key-value pairs: the value of the
final pair carrying the key.  This is the observable content of a Python
dict built from the pairs in order, where later pairs overwrite earlier
ones. -/
def lastMatch {κ ν : Type} [DecidableEq κ] : List (κ × ν) → κ → Option ν
  | [], _ => none
  | (key, v) :: rest, k =>
    match lastMatch rest k with
    | some w => some w
    | none => if k = key then some v else none

/-- Fixture: a results mapping whose subreddits sub-mapping has mentions
for names a and b and sentiment for names b and c. -/
def exampleSubredditResults : List (String × Json) :=
  [("subreddits", .obj
    [("reddit_subreddit_mentions", .obj [("a", .num 1), ("b", .num 2)]),
     ("reddit_subreddit_sentiment", .obj [("b", .num (1/2)), ("c", .num (1/10))])])]

/-- Fixture: a results mapping whose subreddits sub-mapping lacks both the
mentions and the sentiment sub-mappings. -/
def emptySubredditResults : List (String × Json) :=
  [("subreddits", Json.obj [])]

/-- Fixture: a wire response that decodes to an envelope whose success flag
is false. -/
def successFalseResponse : HttpResponse :=
  ⟨true, "body", some (.obj [("success", .bool false)])⟩

/-- Fixture: a successful envelope with an empty results object and no
top-level symbol key. -/
def noSymbolResponse : HttpResponse :=
  ⟨true, "body", some (.obj [("success", .bool true), ("results", .obj [])])⟩

/-- Fixture: the historical example response, one result entry with
timestamp 1618057166.5 and data 0.000059. -/
def historicalExampleResponse : HttpResponse :=
  ⟨true, "body", some (.obj
    [("success", .bool true),
     ("results", .arr
       [.obj [("timestamp", .num (16180571665/10)), ("data", .num (59/1000000))]])])⟩

/-- Fixture: a successful envelope whose results list holds two stock
objects, AAPL then TSLA. -/
def twoStockResponse : HttpResponse :=
  ⟨true, "body", some (.obj
    [("success", .bool true),
     ("results", .arr
       [.obj [("symbol", .str "AAPL")], .obj [("symbol", .str "TSLA")]])])⟩

/-- Claim C4: a raw response body that is exactly the literal text
invalid_parameter or incorrect_key makes the request fail with the
credential error (the ValueError modelling AuthenticationError), whatever
the HTTP status flag and the JSON decoding outcome are. -/
theorem C4_bare_body_authentication_error (resp : HttpResponse)
    (h : resp.body = "invalid_parameter" ∨ resp.body = "incorrect_key") :
    Sentipy.baseRequest resp = .error (.valueError "Incorrect key or token") := by
  unfold Sentipy.baseRequest
  rw [if_pos h]

/-- Concrete instance of the C4 theorem: body incorrect_key with an ok
status and an undecodable body. -/
theorem C4_bare_body_authentication_error_witness :
    Sentipy.baseRequest ⟨true, "incorrect_key", none⟩ =
      .error (.valueError "Incorrect key or token") :=
  C4_bare_body_authentication_error ⟨true, "incorrect_key", none⟩ (Or.inr rfl)

/-- Claim C5: a response body that is neither credential string and fails
to decode as JSON makes the request fail with the protocol error carrying
the raw response text, including when the HTTP status is ok. -/
theorem C5_non_json_protocol_error (resp : HttpResponse)
    (h1 : resp.body ≠ "invalid_parameter") (h2 : resp.body ≠ "incorrect_key")
    (h3 : resp.decoded = none) :
    Sentipy.baseRequest resp = .error (.exceptionText resp.body) := by
  unfold Sentipy.baseRequest
  rw [if_neg (by tauto), h3]

/-- Concrete instance of the C5 theorem: an HTML error page with HTTP
status ok. -/
theorem C5_non_json_protocol_error_witness :
    Sentipy.baseRequest ⟨true, "<html>Internal Server Error</html>", none⟩ =
      .error (.exceptionText "<html>Internal Server Error</html>") :=
  C5_non_json_protocol_error ⟨true, "<html>Internal Server Error</html>", none⟩
    (by decide) (by decide) rfl

/-- Claim C7: the social-data extraction takes each of its three fields
from the platform-prefixed key when that key exists in the flat mapping and
stores an absent value otherwise; it is a total function, so a missing key
never causes an error. -/
theorem C7_social_data_extraction (fields : List (String × Json)) (platform : String) :
    ((∀ v, pyGet fields (platform ++ "_mentions") = some v →
        (SocialData.make fields platform).mentions = some v) ∧
     (pyGet fields (platform ++ "_mentions") = none →
        (SocialData.make fields platform).mentions = none)) ∧
    ((∀ v, pyGet fields (platform ++ "_sentiment") = some v →
        (SocialData.make fields platform).sentiment = some v) ∧
     (pyGet fields (platform ++ "_sentiment") = none →
        (SocialData.make fields platform).sentiment = none)) ∧
    ((∀ v, pyGet fields (platform ++ "_relative_hype") = some v →
        (SocialData.make fields platform).relative_hype = some v) ∧
     (pyGet fields (platform ++ "_relative_hype") = none →
        (SocialData.make fields platform).relative_hype = none)) :=
  ⟨⟨fun _ h => h, fun h => h⟩, ⟨fun _ h => h, fun h => h⟩, ⟨fun _ h => h, fun h => h⟩⟩

/-- Concrete instance of the C7 theorem: a mapping with only a tweet
mentions key yields mentions 5 and absent sentiment and relative hype. -/
theorem C7_social_data_extraction_witness :
    (SocialData.make [("tweet_mentions", .num 5)] "tweet").mentions = some (.num 5) ∧
    (SocialData.make [("tweet_mentions", .num 5)] "tweet").sentiment = none ∧
    (SocialData.make [("tweet_mentions", .num 5)] "tweet").relative_hype = none :=
  ⟨(C7_social_data_extraction [("tweet_mentions", .num 5)] "tweet").1.1 (.num 5) (by decide),
   (C7_social_data_extraction [("tweet_mentions", .num 5)] "tweet").2.1.2 (by decide),
   (C7_social_data_extraction [("tweet_mentions", .num 5)] "tweet").2.2.2 (by decide)⟩

/-- Claim C9: the bulk request parameters, after credential injection,
contain exactly one symbols entry, whose value is the input symbols joined
with commas in input order. -/
theorem C9_bulk_symbols_single_param (symbols : List String) (enrich : Bool)
    (token key : String) :
    (Sentipy.requestParams token key (Sentipy.bulkParams symbols enrich)).countP
        (fun p => p.1 == "symbols") = 1 ∧
    pyGet (Sentipy.requestParams token key (Sentipy.bulkParams symbols enrich)) "symbols" =
      some (Sentipy.ParamValue.str (String.intercalate "," symbols)) := by
  constructor
  · simp [Sentipy.requestParams, Sentipy.bulkParams, Sentipy.pySet, List.countP,
      List.countP.go]
  · simp [Sentipy.requestParams, Sentipy.bulkParams, Sentipy.pySet, pyGet]

/-- Monadic bind on a successful Except value reduces to the
continuation. -/
theorem exceptBind_ok {ε α β : Type} (a : α) (f : α → Except ε β) :
    (Except.ok a >>= f) = f a := rfl

/-- Monadic bind on a raised Except value propagates the error. -/
theorem exceptBind_error {ε α β : Type} (e : ε) (f : α → Except ε β) :
    ((Except.error e : Except ε α) >>= f) = Except.error e := rfl

/-- Mapping a comprehension step over a list of wrapped values succeeds
elementwise and returns the mapped list. -/
theorem exceptMap_map_ok {α β γ : Type} (wrap : β → α) (g : β → γ)
    (f : α → Except PyError γ) (hf : ∀ b, f (wrap b) = .ok (g b)) :
    ∀ rs : List β, Sentipy.exceptMap f (rs.map wrap) = .ok (rs.map g)
  | [] => rfl
  | b :: rest => by
      rw [List.map_cons, List.map_cons]
      show (do
        let y ← f (wrap b)
        let ys ← Sentipy.exceptMap f (rest.map wrap)
        Except.ok (y :: ys)) = _
      rw [hf b, exceptMap_map_ok wrap g f hf rest]
      rfl

/-- A fold of dictionary insertions looks up to the last matching inserted
pair, falling back to the initial mapping. -/
theorem foldl_pyDictInsert {κ ν : Type} [DecidableEq κ] (pairs : List (κ × ν))
    (m : κ → Option ν) (k : κ) :
    (pairs.foldl (fun acc p => Sentipy.pyDictInsert acc p.1 p.2) m) k =
      match lastMatch pairs k with
      | some w => some w
      | none => m k := by
  induction pairs generalizing m with
  | nil => rfl
  | cons p rest ih =>
      obtain ⟨key, v⟩ := p
      rw [List.foldl_cons, ih]
      simp only [lastMatch]
      cases hLM : lastMatch rest k with
      | some w => rfl
      | none =>
          simp only [Sentipy.pyDictInsert]
          by_cases hk : k = key <;> simp [hk]

/-- The dictionary built by a comprehension maps each key to the value of
the last pair carrying it. -/
theorem pyDictOfPairs_eq_lastMatch {κ ν : Type} [DecidableEq κ]
    (pairs : List (κ × ν)) (k : κ) :
    Sentipy.pyDictOfPairs pairs k = lastMatch pairs k := by
  unfold Sentipy.pyDictOfPairs
  rw [foldl_pyDictInsert]
  cases lastMatch pairs k <;> rfl

/-- Evaluation of QuoteData construction when the subreddits key is absent:
the breakdown stores an absent subreddits dictionary. -/
theorem quoteData_make_no_subreddits (symbol : Option Json)
    (results : List (String × Json))
    (hsub : pyGet results "subreddits" = none) :
    QuoteData.make symbol results = Except.ok
      ⟨TickerData.make symbol results,
       ⟨SocialData.make results "reddit_post", SocialData.make results "reddit_comment",
        none⟩,
       SocialData.make results "tweet", SocialData.make results "stocktwits_post",
       SocialData.make results "yahoo_finance_comment"⟩ := by
  unfold QuoteData.make
  rw [hsub]
  rfl

/-- Evaluation of QuoteData construction when the subreddits key holds a
mapping with both required sub-mappings: the breakdown stores the
intersection dictionary. -/
theorem quoteData_make_with_subreddits (symbol : Option Json)
    (results sub m s : List (String × Json))
    (hsub : pyGet results "subreddits" = some (.obj sub))
    (hm : pyGet sub "reddit_subreddit_mentions" = some (.obj m))
    (hs : pyGet sub "reddit_subreddit_sentiment" = some (.obj s)) :
    QuoteData.make symbol results = Except.ok
      ⟨TickerData.make symbol results,
       ⟨SocialData.make results "reddit_post", SocialData.make results "reddit_comment",
        some (fun name =>
          match pyGet m name, pyGet s name with
          | some mv, some sv => some ⟨mv, sv⟩
          | _, _ => none)⟩,
       SocialData.make results "tweet", SocialData.make results "stocktwits_post",
       SocialData.make results "yahoo_finance_comment"⟩ := by
  unfold QuoteData.make
  rw [hsub]
  simp [getAttrObj, hm, hs, exceptBind_ok]

/-- Claim C1: when the input mapping has a subreddits sub-mapping holding
both the mentions and the sentiment sub-mappings, the built reddit
breakdown carries one Subreddit per name in the intersection of the two
key sets, with mentions and sentiment read from the respective
sub-mappings, so a name present in only one sub-mapping is dropped; with
no subreddits key at all the subreddits field is absent; and the concrete
example with mentions for a and b against sentiment for b and c yields
exactly the singleton entry for b. -/
theorem C1_subreddit_intersection :
    (∀ (symbol : Option Json) (results sub m s : List (String × Json)),
      pyGet results "subreddits" = some (.obj sub) →
      pyGet sub "reddit_subreddit_mentions" = some (.obj m) →
      pyGet sub "reddit_subreddit_sentiment" = some (.obj s) →
      ∃ qd : QuoteData, QuoteData.make symbol results = .ok qd ∧
        ∃ f, qd.reddit_data.subreddits = some f ∧
          ∀ name, f name =
            match pyGet m name, pyGet s name with
            | some mv, some sv => some ⟨mv, sv⟩
            | _, _ => none) ∧
    (∀ (symbol : Option Json) (results : List (String × Json)),
      pyGet results "subreddits" = none →
      ∃ qd : QuoteData, QuoteData.make symbol results = .ok qd ∧
        qd.reddit_data.subreddits = none) ∧
    (∃ qd : QuoteData, QuoteData.make none exampleSubredditResults = .ok qd ∧
      ∃ f, qd.reddit_data.subreddits = some f ∧
        ∀ name, f name =
          if name = "b" then some ⟨.num 2, .num (1/2)⟩ else none) := by
  refine ⟨?_, ?_, ?_⟩
  · intro symbol results sub m s hsub hm hs
    exact ⟨_, quoteData_make_with_subreddits symbol results sub m s hsub hm hs,
      _, rfl, fun name => rfl⟩
  · intro symbol results hsub
    exact ⟨_, quoteData_make_no_subreddits symbol results hsub, rfl⟩
  · refine ⟨_, rfl, _, rfl, ?_⟩
    intro name
    by_cases ha : name = "a"
    · subst ha; rfl
    · by_cases hb : name = "b"
      · subst hb; rfl
      · by_cases hc : name = "c"
        · subst hc; rfl
        · simp [pyGet, ha, hb, hc]

/-- Concrete instance of the C1 theorem, evaluated at the example
mapping: the breakdown has no entry for a, the intersection entry for b,
and no entry for c. -/
theorem C1_subreddit_intersection_witness :
    ∃ qd : QuoteData, QuoteData.make none exampleSubredditResults = .ok qd ∧
      ∃ f, qd.reddit_data.subreddits = some f ∧
        f "a" = none ∧
        f "b" = some ⟨.num 2, .num (1/2)⟩ ∧
        f "c" = none := by
  obtain ⟨qd, hqd, f, hf, hall⟩ :=
    C1_subreddit_intersection.1 none exampleSubredditResults
      [("reddit_subreddit_mentions", .obj [("a", .num 1), ("b", .num 2)]),
       ("reddit_subreddit_sentiment", .obj [("b", .num (1/2)), ("c", .num (1/10))])]
      [("a", .num 1), ("b", .num 2)]
      [("b", .num (1/2)), ("c", .num (1/10))]
      rfl rfl rfl
  exact ⟨qd, hqd, f, hf, by rw [hall]; rfl, by rw [hall]; rfl, by rw [hall]; rfl⟩

/-- Claim C2 fails on the code: when the input mapping has a subreddits
key whose sub-mapping lacks the mentions sub-mapping, QuoteData
construction raises an AttributeError instead of succeeding, because the
code calls keys() on the absent value. -/
theorem C2_missing_submapping_counterexample :
    QuoteData.make none emptySubredditResults =
      .error (.attributeError "NoneType has no attribute get or keys") ∧
    ¬ ∃ qd : QuoteData, QuoteData.make none emptySubredditResults = .ok qd := by
  refine ⟨rfl, ?_⟩
  rintro ⟨qd, h⟩
  rw [show QuoteData.make none emptySubredditResults =
    .error (.attributeError "NoneType has no attribute get or keys") from rfl] at h
  exact Except.noConfusion h

/-- Claim C2 as amended: record construction never fails on a missing key
except in the subreddits corner: whenever the subreddits key, if present
at all, holds a mapping with both required sub-mappings present as
mappings, QuoteData construction (and with it the TickerData base and the
reddit breakdown assembly) succeeds. -/
theorem C2_construction_succeeds (symbol : Option Json)
    (results : List (String × Json))
    (h : ∀ j, pyGet results "subreddits" = some j →
      ∃ sub m s, j = Json.obj sub ∧
        pyGet sub "reddit_subreddit_mentions" = some (.obj m) ∧
        pyGet sub "reddit_subreddit_sentiment" = some (.obj s)) :
    ∃ qd : QuoteData, QuoteData.make symbol results = .ok qd := by
  cases hsub : pyGet results "subreddits" with
  | none =>
      exact ⟨_, quoteData_make_no_subreddits symbol results hsub⟩
  | some j =>
      obtain ⟨sub, m, s, rfl, hm, hs⟩ := h j hsub
      exact ⟨_, quoteData_make_with_subreddits symbol results sub m s hsub hm hs⟩

/-- Claim C3: when the request pipeline succeeds and the decoded envelope
is a mapping whose success field is false, every public operation returns
the no-result value (ok none) and never raises. -/
theorem C3_success_false_no_result (resp : HttpResponse)
    (response : List (String × Json))
    (hreq : Sentipy.baseRequest resp = .ok (.obj response))
    (hsucc : pyGet response "success" = some (.bool false))
    (symbol metric : String) (limit start endTime : Int) (enrich : Bool)
    (symbols : List String) :
    Sentipy.parsed symbol resp = .ok none ∧
    Sentipy.raw symbol resp = .ok none ∧
    Sentipy.quote symbol enrich resp = .ok none ∧
    Sentipy.sort metric limit resp = .ok none ∧
    Sentipy.historical symbol metric start endTime resp = .ok none ∧
    Sentipy.bulk symbols enrich resp = .ok none ∧
    Sentipy.all enrich resp = .ok none ∧
    Sentipy.supported symbol resp = .ok none ∧
    Sentipy.all_stocks resp = .ok none := by
  refine ⟨?_, ?_, ?_, ?_, ?_, ?_, ?_, ?_, ?_⟩ <;>
    simp [Sentipy.parsed, Sentipy.raw, Sentipy.quote, Sentipy.sort,
      Sentipy.historical, Sentipy.bulk, Sentipy.all, Sentipy.supported,
      Sentipy.all_stocks, hreq, exceptBind_ok, hsucc, truthy]

/-- Concrete instance of the C3 theorem: an ok response carrying a decoded
envelope with success false makes all nine operations return ok none. -/
theorem C3_success_false_no_result_witness :
    Sentipy.parsed "AAPL" successFalseResponse = .ok none ∧
    Sentipy.raw "AAPL" successFalseResponse = .ok none ∧
    Sentipy.quote "AAPL" true successFalseResponse = .ok none ∧
    Sentipy.sort "AHI" 4 successFalseResponse = .ok none ∧
    Sentipy.historical "AAPL" "RHI" 1614556869 1619654469 successFalseResponse = .ok none ∧
    Sentipy.bulk ["AAPL", "TSLA"] true successFalseResponse = .ok none ∧
    Sentipy.all true successFalseResponse = .ok none ∧
    Sentipy.supported "AAPL" successFalseResponse = .ok none ∧
    Sentipy.all_stocks successFalseResponse = .ok none :=
  C3_success_false_no_result successFalseResponse [("success", .bool false)]
    rfl rfl "AAPL" "RHI" 4 1614556869 1619654469 true ["AAPL", "TSLA"]

/-- Concrete instance of the amended C2 theorem: QuoteData construction
from the empty mapping (every key missing) succeeds. -/
theorem C2_construction_succeeds_witness :
    ∃ qd : QuoteData, QuoteData.make none [] = .ok qd :=
  C2_construction_succeeds none [] (by intro j hj; simp [pyGet] at hj)

/-- Claim C8: on a successful sort or bulk call whose results sequence has
n object elements, the returned value is the sequence of exactly n
TickerData records in response order, the i-th built from the i-th element
using that element's own symbol key; no local re-sorting happens. -/
theorem C8_sort_bulk_order_preserved (resp : HttpResponse)
    (response : List (String × Json)) (rs : List (List (String × Json)))
    (metric : String) (limit : Int) (symbols : List String) (enrich : Bool)
    (hreq : Sentipy.baseRequest resp = .ok (.obj response))
    (hsucc : truthy (pyGet response "success") = true)
    (hres : pyGet response "results" = some (.arr (rs.map Json.obj))) :
    Sentipy.sort metric limit resp = .ok (some (rs.map fun stockFields =>
      TickerData.make (pyGet stockFields "symbol") stockFields)) ∧
    Sentipy.bulk symbols enrich resp = .ok (some (rs.map fun stockFields =>
      TickerData.make (pyGet stockFields "symbol") stockFields)) ∧
    (rs.map fun stockFields =>
      TickerData.make (pyGet stockFields "symbol") stockFields).length = rs.length ∧
    ∀ i (hi : i < rs.length),
      (rs.map fun stockFields =>
        TickerData.make (pyGet stockFields "symbol") stockFields).get
          ⟨i, by rw [List.length_map]; exact hi⟩ =
        TickerData.make (pyGet (rs.get ⟨i, hi⟩) "symbol") (rs.get ⟨i, hi⟩) := by
  have hmap : Sentipy.exceptMap Sentipy.tickerFromStock (rs.map Json.obj) =
      .ok (rs.map fun stockFields =>
        TickerData.make (pyGet stockFields "symbol") stockFields) :=
    exceptMap_map_ok Json.obj
      (fun stockFields => TickerData.make (pyGet stockFields "symbol") stockFields)
      Sentipy.tickerFromStock (fun b => rfl) rs
  refine ⟨?_, ?_, List.length_map _ _, ?_⟩
  · simp [Sentipy.sort, hreq, exceptBind_ok, hsucc, hres, getAttrArr, hmap]
  · simp [Sentipy.bulk, hreq, exceptBind_ok, hsucc, hres, getAttrArr, hmap]
  · intro i hi
    simp

/-- Concrete instance of the C8 theorem: a two-element results list yields
the two TickerData records in the same order. -/
theorem C8_sort_bulk_order_preserved_witness :
    Sentipy.sort "AHI" 4 twoStockResponse =
      .ok (some [TickerData.make (some (.str "AAPL")) [("symbol", .str "AAPL")],
                 TickerData.make (some (.str "TSLA")) [("symbol", .str "TSLA")]]) ∧
    Sentipy.bulk ["AAPL", "TSLA"] false twoStockResponse =
      .ok (some [TickerData.make (some (.str "AAPL")) [("symbol", .str "AAPL")],
                 TickerData.make (some (.str "TSLA")) [("symbol", .str "TSLA")]]) := by
  have h := C8_sort_bulk_order_preserved twoStockResponse
    [("success", .bool true),
     ("results", .arr [.obj [("symbol", .str "AAPL")], .obj [("symbol", .str "TSLA")]])]
    [[("symbol", .str "AAPL")], [("symbol", .str "TSLA")]]
    "AHI" 4 ["AAPL", "TSLA"] false rfl rfl rfl
  exact ⟨h.1, h.2.1⟩

/-- Claim C10: for parsed, raw and quote on a success response, the symbol
stored in the returned record is the envelope's top-level symbol value,
not the symbol argument the caller passed; when the envelope lacks a
symbol key the record's symbol is absent; and the result does not depend
on the caller's symbol argument at all. -/
theorem C10_symbol_from_envelope (resp : HttpResponse)
    (response results : List (String × Json)) (callerSymbol otherSymbol : String)
    (enrich : Bool)
    (hreq : Sentipy.baseRequest resp = .ok (.obj response))
    (hsucc : truthy (pyGet response "success") = true)
    (hres : pyGet response "results" = some (.obj results))
    (hsub : pyGet results "subreddits" = none) :
    (∃ td : TickerData, Sentipy.parsed callerSymbol resp = .ok (some td) ∧
      td.symbol = pyGet response "symbol") ∧
    (∃ qd : QuoteData, Sentipy.raw callerSymbol resp = .ok (some qd) ∧
      qd.symbol = pyGet response "symbol") ∧
    (∃ qd : QuoteData, Sentipy.quote callerSymbol enrich resp = .ok (some qd) ∧
      qd.symbol = pyGet response "symbol") ∧
    (pyGet response "symbol" = none →
      ∃ td : TickerData, Sentipy.parsed callerSymbol resp = .ok (some td) ∧
        td.symbol = none) ∧
    Sentipy.parsed callerSymbol resp = Sentipy.parsed otherSymbol resp ∧
    Sentipy.raw callerSymbol resp = Sentipy.raw otherSymbol resp ∧
    Sentipy.quote callerSymbol enrich resp = Sentipy.quote otherSymbol enrich resp := by
  have hparsed : Sentipy.parsed callerSymbol resp =
      .ok (some (TickerData.make (pyGet response "symbol") results)) := by
    simp [Sentipy.parsed, hreq, exceptBind_ok, hsucc, hres, getAttrObj]
  have hqd := quoteData_make_no_subreddits (pyGet response "symbol") results hsub
  have hraw : Sentipy.raw callerSymbol resp = .ok (some
      ⟨TickerData.make (pyGet response "symbol") results,
       ⟨SocialData.make results "reddit_post", SocialData.make results "reddit_comment",
        none⟩,
       SocialData.make results "tweet", SocialData.make results "stocktwits_post",
       SocialData.make results "yahoo_finance_comment"⟩) := by
    simp [Sentipy.raw, hreq, exceptBind_ok, hsucc, hres, getAttrObj, hqd]
  have hquote : Sentipy.quote callerSymbol enrich resp = .ok (some
      ⟨TickerData.make (pyGet response "symbol") results,
       ⟨SocialData.make results "reddit_post", SocialData.make results "reddit_comment",
        none⟩,
       SocialData.make results "tweet", SocialData.make results "stocktwits_post",
       SocialData.make results "yahoo_finance_comment"⟩) := by
    simp [Sentipy.quote, hreq, exceptBind_ok, hsucc, hres, getAttrObj, hqd]
  refine ⟨⟨_, hparsed, rfl⟩, ⟨_, hraw, rfl⟩, ⟨_, hquote, rfl⟩, ?_, rfl, rfl, rfl⟩
  intro hsym
  rw [hsym] at hparsed
  exact ⟨_, hparsed, rfl⟩

/-- Concrete instance of the C10 theorem: a success envelope with no
symbol key yields a record whose symbol is absent, for any caller
argument. -/
theorem C10_symbol_from_envelope_witness :
    ∃ td : TickerData, Sentipy.parsed "AAPL" noSymbolResponse = .ok (some td) ∧
      td.symbol = none :=
  (C10_symbol_from_envelope noSymbolResponse
    [("success", .bool true), ("results", .obj [])] [] "AAPL" "TSLA" false
    rfl rfl rfl rfl).2.2.2.1 rfl

/-- Claim C6: a successful historical call returns the mapping built from
the results sequence by keying each entry's timestamp value to its data
value, with a later duplicate timestamp overwriting the earlier one (the
mapping looks up to the last matching pair); in particular the example
response with one entry yields the singleton mapping from 1618057166.5 to
0.000059. -/
theorem C6_historical_timestamp_mapping :
    (∀ (resp : HttpResponse) (response : List (String × Json))
       (rs : List (List (String × Json))) (symbol metric : String)
       (start endTime : Int),
      Sentipy.baseRequest resp = .ok (.obj response) →
      truthy (pyGet response "success") = true →
      pyGet response "results" = some (.arr (rs.map Json.obj)) →
      ∃ m, Sentipy.historical symbol metric start endTime resp = .ok (some m) ∧
        ∀ k, m k = lastMatch
          (rs.map fun dpFields => (pyGet dpFields "timestamp", pyGet dpFields "data")) k) ∧
    (∃ m, Sentipy.historical "AAPL" "RHI" 1614556869 1619654469 historicalExampleResponse
        = .ok (some m) ∧
      ∀ k, m k = if k = some (.num (16180571665 / 10))
        then some (some (.num (59 / 1000000))) else none) := by
  constructor
  · intro resp response rs symbol metric start endTime hreq hsucc hres
    have hmap : Sentipy.exceptMap Sentipy.timestampDataPair (rs.map Json.obj) =
        .ok (rs.map fun dpFields => (pyGet dpFields "timestamp", pyGet dpFields "data")) :=
      exceptMap_map_ok Json.obj
        (fun dpFields => (pyGet dpFields "timestamp", pyGet dpFields "data"))
        Sentipy.timestampDataPair (fun b => rfl) rs
    have hhist : Sentipy.historical symbol metric start endTime resp =
        .ok (some (Sentipy.pyDictOfPairs
          (rs.map fun dpFields => (pyGet dpFields "timestamp", pyGet dpFields "data")))) := by
      simp [Sentipy.historical, hreq, exceptBind_ok, hsucc, hres, getAttrArr, hmap]
    exact ⟨_, hhist, fun k => pyDictOfPairs_eq_lastMatch _ k⟩
  · refine ⟨Sentipy.pyDictOfPairs
      [(some (.num (16180571665 / 10)), some (.num (59 / 1000000)))], rfl, fun k => rfl⟩

/-- Concrete instance of the C6 theorem, evaluated at the example
response: the mapping sends the example timestamp to the example data
value and any other key (here the absent timestamp) to nothing. -/
theorem C6_historical_timestamp_mapping_witness :
    ∃ m, Sentipy.historical "AAPL" "RHI" 1614556869 1619654469 historicalExampleResponse
        = .ok (some m) ∧
      m (some (.num (16180571665 / 10))) = some (some (.num (59 / 1000000))) ∧
      m none = none := by
  obtain ⟨m, hm, hk⟩ := C6_historical_timestamp_mapping.1 historicalExampleResponse
    [("success", .bool true),
     ("results", .arr
       [.obj [("timestamp", .num (16180571665 / 10)), ("data", .num (59 / 1000000))]])]
    [[("timestamp", .num (16180571665 / 10)), ("data", .num (59 / 1000000))]]
    "AAPL" "RHI" 1614556869 1619654469 rfl rfl rfl
  exact ⟨m, hm, by rw [hk]; simp [lastMatch, pyGet], by rw [hk]; simp [lastMatch, pyGet]⟩
